import Mathlib

/-!
Verification of the tqsdk_broker_connect bridge against its specification.

Each Python function relevant to the checked claims is shallowly embedded as
an executable Lean definition, translated line by line from its source file.
Wall-clock readings, broker views and cache contents are passed as explicit
arguments; fallible operations return `Bool`, `Option` or an error type.
-/

namespace TqBroker

/-! ## Worker loop liveness counter

Embeds `AioPikaTqApiService.tqapi_worker_loop` from
`src/shared/aiopika_tqapi_base.py` (lines 81-105).  Each loop iteration makes
one `wait_update` (drain) call; the observation records whether the drain saw
a broker event before its deadline (`success`, the truthiness of `block_res`)
and whether `_in_trading_time()` held at that moment. -/

structure DrainObs where
  success : Bool
  in_trading : Bool
deriving DecidableEq, Repr

/-- `self.block_counter_max = 3` (aiopika_tqapi_base.py line 42). -/
def block_counter_max : Nat := 3

structure WorkerState where
  block_counter : Nat
  fatal : Bool
deriving DecidableEq, Repr

/-- One iteration of the worker loop body: on a failed drain during trading
hours the counter is incremented, on a failed drain outside trading hours it
is left unchanged, on a successful drain it is reset to 0; afterwards the
loop raises (`fatal`) iff `block_counter > self.block_counter_max`.  A raised
exception leaves the loop, so the fatal state is absorbing. -/
def worker_step (s : WorkerState) (o : DrainObs) : WorkerState :=
  if s.fatal then s
  else
    let c := if o.success then 0
             else if o.in_trading then s.block_counter + 1
             else s.block_counter
    { block_counter := c, fatal := decide (c > block_counter_max) }

/-- Run the worker loop from its initial state (`block_counter = 0`) over a
sequence of drain observations. -/
def worker_run (obs : List DrainObs) : WorkerState :=
  obs.foldl worker_step { block_counter := 0, fatal := false }

/-- A drain that times out during trading hours. -/
def fail_in_trading : DrainObs := { success := false, in_trading := true }

lemma worker_run_append (l : List DrainObs) (o : DrainObs) :
    worker_run (l ++ [o]) = worker_step (worker_run l) o := by
  simp [worker_run, List.foldl_append]

lemma worker_run_fail_replicate (n : Nat) :
    worker_run (List.replicate n fail_in_trading) =
      if n ≤ 3 then { block_counter := n, fatal := false }
      else { block_counter := 4, fatal := true } := by
  induction n with
  | zero => simp [worker_run]
  | succ n ih =>
      rw [List.replicate_succ', worker_run_append, ih]
      by_cases h : n ≤ 3
      · simp only [if_pos h]
        by_cases h4 : n + 1 ≤ 3
        · rw [if_pos h4]
          simp [worker_step, fail_in_trading, block_counter_max]
          omega
        · rw [if_neg h4]
          have hn : n = 3 := by omega
          subst hn
          simp [worker_step, fail_in_trading, block_counter_max]
      · rw [if_neg h, if_neg (by omega)]
        simp [worker_step]

/-! ## Order Handler database writer

Embeds `OrderPostgresWriter.write_order_update` from
`src/services/tq_order_handler/postgres_writer.py` (lines 29-76): the UPDATE
statement sets every mutable column of the `order_history_futures_chn` row to
the value carried by the update, unconditionally. -/

structure OrderRowMutable where
  exchange_order_id : String
  exchange_id : String
  volume_left : Int
  last_msg : String
  status : String
  is_dead : Bool
  is_online : Bool
  is_error : Bool
  trade_price : Rat
  exchange_trading_date : String
  updated_at : Int
deriving DecidableEq, Repr

/-- The mutable columns of the orders row after
`OrderPostgresWriter.write_order_update` applies an update carrying the
mutable fields `upd` at wall-clock time `now` (`updated_at = NOW()`).  The
old row contents do not appear in any SET expression of the UPDATE. -/
def write_order_update (_row : OrderRowMutable) (upd : OrderRowMutable)
    (now : Int) : OrderRowMutable :=
  { exchange_order_id := upd.exchange_order_id
    exchange_id := upd.exchange_id
    volume_left := upd.volume_left
    last_msg := upd.last_msg
    status := upd.status
    is_dead := upd.is_dead
    is_online := upd.is_online
    is_error := upd.is_error
    trade_price := upd.trade_price
    exchange_trading_date := upd.exchange_trading_date
    updated_at := now }

/-- Embeds the UPDATE statement of `DataProcessor.process_order_update` from
`src/tqsdk_client/data_processor.py` (lines 91-109), acting on the
`order_history` schema: given the stored `(status, filled_quantity)` and the
update's `(status, filled_quantity)`, returns the stored pair afterwards.
`status` keeps `PARTIALLY_FILLED` when the update is `CANCELED`;
`filled_quantity` only grows. -/
def dp_process_order_update (row_status : String) (row_filled : Rat)
    (upd_status : String) (upd_filled : Rat) : String × Rat :=
  ( if row_status = "PARTIALLY_FILLED" ∧ upd_status = "CANCELED" then
      "PARTIALLY_FILLED"
    else upd_status,
    if upd_filled > row_filled then upd_filled else row_filled )

/-- A concrete stored row at `status = PARTIALLY_FILLED`, `volume_left`
corresponding to 2 lots remaining of 5 (3 filled). -/
def row_partially_filled : OrderRowMutable :=
  { exchange_order_id := "E1", exchange_id := "SHFE", volume_left := 2,
    last_msg := "", status := "PARTIALLY_FILLED", is_dead := false,
    is_online := true, is_error := false, trade_price := 17355,
    exchange_trading_date := "20261012", updated_at := 0 }

/-- A concrete update message carrying `status = CANCELED` and a smaller
fill (3 lots remaining of 5, i.e. 2 filled). -/
def upd_canceled : OrderRowMutable :=
  { exchange_order_id := "E1", exchange_id := "SHFE", volume_left := 3,
    last_msg := "canceled", status := "CANCELED", is_dead := true,
    is_online := false, is_error := false, trade_price := 17355,
    exchange_trading_date := "20261012", updated_at := 0 }

/-! ## Dual-loop bus-loop acknowledgement

Embeds the per-message handling inside
`AioPikaTqApiService.consume_messages_async` from
`src/shared/aiopika_tqapi_base.py` (lines 161-177).  The body runs inside
`async with message.process()`: aio-pika acks the message when the block
exits normally and rejects it without requeue (`requeue=False` is the
default) when the block exits with an exception. -/

inductive InnerOutcome where
  | completed (handed_off : Bool)
  | raised (msg : String)
deriving DecidableEq, Repr

/-- The block body: `json.loads` either yields a message (`some m`) or
raises `JSONDecodeError` (`none`), in which case the inner
`except json.JSONDecodeError` clause logs and swallows the error, so the
block completes without a hand-off.  On a decoded message,
`put_nowait` succeeds when the bounded queue has room; when it is full the
code raises a fresh exception that propagates out of the block. -/
def bus_inner {α : Type} (decoded : Option α) (queue_has_room : Bool) :
    InnerOutcome :=
  match decoded with
  | none => .completed false
  | some _ => if queue_has_room then .completed true
              else .raised "Queue full"

inductive BusAck where
  | ack
  | reject_no_requeue
deriving DecidableEq, Repr

/-- Exit semantics of `aio_pika.IncomingMessage.process()`. -/
def process_context_exit : InnerOutcome → BusAck
  | .completed _ => .ack
  | .raised _ => .reject_no_requeue

/-- Acknowledgement produced for one consumed message of the dual-loop bus
loop, together with whether it was handed off to the internal queue. -/
def bus_loop_handle {α : Type} (decoded : Option α) (queue_has_room : Bool) :
    BusAck × Bool :=
  (process_context_exit (bus_inner decoded queue_has_room),
   match bus_inner decoded queue_has_room with
   | .completed h => h
   | .raised _ => false)

/-- Embeds `on_message` of `RabbitMQConsumer.consume` from
`src/shared/rabbitmq_client.py` (lines 139-157), the blocking consumer used
by the standalone services.  `decoded = none` models a `json.JSONDecodeError`
from `json.loads`; `callback_result` is `some b` when the callback returns
`b` and `none` when it raises. -/
inductive ConsumeAck where
  | ack
  | nack_requeue
  | nack_no_requeue
deriving DecidableEq, Repr

def consumer_on_message {α : Type} (running : Bool) (decoded : Option α)
    (callback_result : Option Bool) : ConsumeAck :=
  if ¬ running then .nack_requeue
  else
    match decoded with
    | none => .nack_no_requeue
    | some _ =>
      match callback_result with
      | some true => .ack
      | some false => .nack_no_requeue
      | none => .nack_requeue

/-! ## Order event classification

Embeds `OrderMonitor._determine_event_type` from
`src/services/tq_order_monitor/monitor.py` (lines 97-109). -/

def determine_event_type (status : String) (volume_left volume_orign : Int) :
    String :=
  if status = "FINISHED" then
    if volume_left = 0 then "COMPLETE_FILL" else "CANCELED"
  else if status = "ALIVE" then
    if volume_left < volume_orign then "PARTIAL_FILL" else "NEW"
  else status

/-! ## Submitter pipeline

Embeds `src/services/tq_order_submitter/executor.py`.  A SUBMIT message is a
JSON object; the executor reads `symbol`, `direction`, `offset` and `volume`
by indexing (a missing key raises and the order is rejected before any side
effect) and `limit_price`, `order_id`, `timestamp` via `.get`.  The model
carries the indexed fields directly and the optional ones as `Option`. -/

structure SubmitMessage where
  symbol : String
  direction : String
  offset : String
  volume : Int
  limit_price : Option Rat
  order_id : String
  timestamp : Option Int
deriving DecidableEq, Repr

/-- `ORDER_EXPIRE_ALLOW_MAX = 5` seconds (shared/constants.py line 28). -/
def ORDER_EXPIRE_ALLOW_MAX : Int := 5

/-- `SESSION_END_BUFFER_SECONDS = 15` (executor.py line 15). -/
def SESSION_END_BUFFER_SECONDS : Nat := 15

/-- The three trading windows of `is_in_trading_session` (executor.py lines
45-49), as seconds from midnight, Asia/Shanghai wall clock. -/
def trading_sessions : List (Nat × Nat) :=
  [(9 * 3600, 10 * 3600 + 15 * 60),
   (10 * 3600 + 30 * 60, 11 * 3600 + 30 * 60),
   (13 * 3600 + 30 * 60, 15 * 3600)]

/-- Embeds `is_in_trading_session` (executor.py lines 18-74): `t` is the
current Asia/Shanghai time in seconds from midnight.  The first window
containing `t` (inclusive on both ends) is selected; the check fails when no
window contains `t` or when at most `SESSION_END_BUFFER_SECONDS` remain
before that window's end. -/
def is_in_trading_session (t : Nat) : Bool :=
  match trading_sessions.find? (fun s => decide (s.1 ≤ t) && decide (t ≤ s.2)) with
  | none => false
  | some s => decide (SESSION_END_BUFFER_SECONDS < s.2 - t)

/-- Observable side effects of the submit path, in program order.
`db_insert` is the event `OrderDbWriter.insert_order` would emit; it is
included so that its absence from every trace of `execute_order` is a
statement about the embedded code rather than about the event vocabulary. -/
inductive SubmitEvent where
  | db_insert (order_id : String)
  | drain
  | broker_insert (symbol direction offset : String) (volume : Int)
      (limit_price : Option Rat) (order_id : String)
  | reject_log (reason : String)
deriving DecidableEq, Repr

def SubmitEvent.is_db_insert : SubmitEvent → Bool
  | .db_insert _ => true
  | _ => false

def SubmitEvent.is_broker_insert : SubmitEvent → Bool
  | .broker_insert _ _ _ _ _ _ => true
  | _ => false

/-- Embeds `execute_order` (executor.py lines 77-163).  `now_ns` is
`time.time_ns()` at the age check and `tod` the Asia/Shanghai wall-clock
time in seconds from midnight at the session check.  Returns the Python
return value (`some false` on reject; `none`, i.e. Python `None`, on the
fall-through success path, which has no `return True`) together with the
trace of side effects.  `if order_timestamp:` is a truthiness test, so a
timestamp equal to 0 takes the missing-timestamp branch. -/
def execute_order (req : SubmitMessage) (now_ns : Int) (tod : Nat) :
    Option Bool × List SubmitEvent :=
  match req.timestamp with
  | none => (some false, [.reject_log "missing timestamp"])
  | some ts =>
    if ts = 0 then (some false, [.reject_log "missing timestamp"])
    else if now_ns - ts > ORDER_EXPIRE_ALLOW_MAX * 1000000000 then
      (some false, [.reject_log "expired"])
    else if ¬ is_in_trading_session tod then
      (some false, [.reject_log "not in trading session"])
    else
      (none,
       [.drain,
        .broker_insert req.symbol req.direction req.offset req.volume
          req.limit_price req.order_id,
        .drain])

/-- The scenario-S1 SUBMIT request. -/
def s1_request : SubmitMessage :=
  { symbol := "SHFE.pb2611", direction := "SELL", offset := "OPEN",
    volume := 2, limit_price := some 17355, order_id := "A",
    timestamp := some 1000000000 }

/-! ## Close-today splitting

Embeds `src/services/tq_order_submitter/closetoday_splitter.py` and the
position model of `shared/models.py` (class `FullPosition`). -/

structure FullPosition where
  pos_long : Int := 0
  pos_short : Int := 0
  pos : Int := 0
  pos_long_today : Int := 0
  pos_long_his : Int := 0
  pos_short_today : Int := 0
  pos_short_his : Int := 0
deriving DecidableEq, Repr

/-- Embeds `FullPosition.equals` (models.py lines 109-119) on present
values (the Python `other is None` case is handled by the caller's match). -/
def full_position_equals (a b : FullPosition) : Bool :=
  decide (a.pos_long = b.pos_long) && decide (a.pos_short = b.pos_short) &&
  decide (a.pos = b.pos) && decide (a.pos_long_today = b.pos_long_today) &&
  decide (a.pos_long_his = b.pos_long_his) &&
  decide (a.pos_short_today = b.pos_short_today) &&
  decide (a.pos_short_his = b.pos_short_his)

/-- `CLOSETODAY_EXCHANGES = SHFE, INE` (shared/constants.py line 35). -/
def CLOSETODAY_EXCHANGES : List String := ["SHFE", "INE"]

/-- The dot character, code point 46. -/
def dot_char : Char := Char.ofNat 46

/-- Embeds `requires_closetoday` (closetoday_splitter.py lines 14-17):
`symbol.split(".")[0] if "." in symbol else ""` — the prefix of the symbol
before its first dot when a dot is present, the empty string otherwise —
then membership in `CLOSETODAY_EXCHANGES`.  Characters are handled as the
symbol's character list so the definition evaluates by reduction. -/
def requires_closetoday (symbol : String) : Bool :=
  let cs := symbol.toList
  let exchange := if cs.contains dot_char
                  then String.mk (cs.takeWhile (fun c => c ≠ dot_char))
                  else ""
  CLOSETODAY_EXCHANGES.contains exchange

/-- Quantity closed first: `direction == "SELL"` closes the long side,
anything else the short side (closetoday_splitter.py lines 48-53). -/
def today_qty (req : SubmitMessage) (pos : FullPosition) : Int :=
  if req.direction = "SELL" then pos.pos_long_today else pos.pos_short_today

def his_qty (req : SubmitMessage) (pos : FullPosition) : Int :=
  if req.direction = "SELL" then pos.pos_long_his else pos.pos_short_his

/-- Embeds the splitting logic of `split_close_order` (closetoday_splitter.py
lines 20-83).  The Redis lookup result is passed in as `position` (`none`
models a missing/falsy cache value); the integration with the actual
`RedisClient` is modelled separately below. -/
def split_close_order (req : SubmitMessage) (position : Option FullPosition) :
    List SubmitMessage :=
  if ¬ (req.offset = "CLOSE" ∧ requires_closetoday req.symbol) then [req]
  else
    match position with
    | none => [req]
    | some pos =>
      let remaining := req.volume
      let first_part :=
        if today_qty req pos > 0 ∧ remaining > 0 then
          [{ req with offset := "CLOSETODAY",
                      volume := min (today_qty req pos) remaining,
                      order_id := req.order_id ++ "_closetoday" }]
        else []
      let remaining1 :=
        if today_qty req pos > 0 ∧ remaining > 0 then
          remaining - min (today_qty req pos) remaining
        else remaining
      let second_part :=
        if his_qty req pos > 0 ∧ remaining1 > 0 then
          [{ req with offset := "CLOSE",
                      volume := min (his_qty req pos) remaining1,
                      order_id := req.order_id ++ "_close" }]
        else []
      let orders := first_part ++ second_part
      if orders = [] then [req] else orders

/-- Total volume carried by a list of order requests. -/
def volume_sum (l : List SubmitMessage) : Int :=
  l.foldl (fun a o => a + o.volume) 0

/-! ## The Redis client surface (shared/redis_client.py, shared/constants.py)

The names below are transcribed from the source files: the module-level
names defined by `shared/constants.py`, the names `shared/redis_client.py`
imports from it, and the methods the `RedisClient` class defines. -/

/-- Module-level names defined in `src/shared/constants.py`. -/
def constants_defined_names : List String :=
  ["EXTERNAL_ORDER_SUBMIT_QUEUE", "EXTERNAL_ORDER_CANCEL_QUEUE",
   "EXTERNAL_ORDER_EXCHANGE", "INTERNAL_EXCHANGE",
   "INTERNAL_ORDER_UPDATES_QUEUE", "INTERNAL_ACCOUNT_UPDATES_QUEUE",
   "ROUTING_KEY_ORDER_UPDATES", "ROUTING_KEY_ACCOUNT_UPDATES",
   "REDIS_POSITION_KEY_PATTERN", "REDIS_ACCOUNT_KEY_PATTERN",
   "POSITION_TTL", "ACCOUNT_TTL", "ORDER_EXPIRE_ALLOW_MAX",
   "POSITION_LOOP_INTERVAL_SECONDS", "UNIVERSE_REFRESH_INTERVAL_SECONDS",
   "CLOSETODAY_EXCHANGES"]

/-- Names `src/shared/redis_client.py` (lines 10-17) imports from
`shared.constants`. -/
def redis_client_imported_names : List String :=
  ["REDIS_POSITION_KEY_PATTERN", "REDIS_POSITION_BREAKDOWN_KEY_PATTERN",
   "REDIS_ACCOUNT_KEY_PATTERN", "POSITION_TTL", "POSITION_BREAKDOWN_TTL",
   "ACCOUNT_TTL"]

/-- Methods defined by the `RedisClient` class
(`src/shared/redis_client.py` lines 20-116). -/
def redis_client_methods : List String :=
  ["__init__", "connect", "set_position", "get_position",
   "set_position_breakdown", "get_position_breakdown", "set_account",
   "get_account", "close"]

inductive PyResult (α : Type) where
  | ok (value : α)
  | error (msg : String)
deriving DecidableEq, Repr

/-- Python attribute lookup on a `RedisClient` instance: calling a method
that the class does not define raises `AttributeError`. -/
def redis_method_call (name : String) : PyResult Unit :=
  if redis_client_methods.contains name then .ok ()
  else .error ("AttributeError: " ++ name)

/-- Importing `shared.redis_client` executes its `from .constants import`
statement; a name absent from `shared.constants` raises `ImportError`. -/
def import_shared_redis_client : PyResult Unit :=
  if redis_client_imported_names.all (fun n => constants_defined_names.contains n)
  then .ok () else .error "ImportError"

/-- `split_close_order` as it executes against the actual `RedisClient`:
line 38 of closetoday_splitter.py calls `redis_client.get_full_position`
before any splitting.  `cached` stands for the value that call would return
if the method existed. -/
def split_close_order_run (req : SubmitMessage)
    (cached : Option FullPosition) : PyResult (List SubmitMessage) :=
  if ¬ (req.offset = "CLOSE" ∧ requires_closetoday req.symbol) then .ok [req]
  else
    match redis_method_call "get_full_position" with
    | .error m => .error m
    | .ok _ => .ok (split_close_order req cached)

/-- Embeds `PositionLoopMonitor._reconcile_position` from
`src/services/tq_position_loop_monitor/monitor.py` (lines 84-100) as it
executes against the actual `RedisClient`.  `cached` stands for the value
the initial `get_full_position` call would return if the method existed. -/
def reconcile_position_run (tq_position : FullPosition)
    (cached : Option FullPosition) : PyResult Unit :=
  match redis_method_call "get_full_position" with
  | .error m => .error m
  | .ok _ =>
    match cached with
    | none => redis_method_call "set_full_position"
    | some redis_position =>
      if full_position_equals tq_position redis_position then
        redis_method_call "refresh_position_ttl"
      else
        redis_method_call "set_full_position"

/-! ## Canceller

Embeds `cancel_order` from `src/services/tq_order_canceller/executor.py`
(lines 65-95).  The broker's live order view is a list of orders; the
statuses the order takes after each successive `wait_update()` call inside
the drain loop are passed as `updates`. -/

structure BrokerOrder where
  order_id : String
  status : String
deriving DecidableEq, Repr

inductive CancelEvent where
  | warn_not_found
  | warn_not_alive
  | cancel_call (order_id : String)
  | drain
deriving DecidableEq, Repr

/-- The loop `while order.status == "ALIVE": api.wait_update()`: returns the
number of `wait_update` calls performed, or `none` when the loop never exits
(the Python loop would run forever). -/
def drain_while_alive (cur : String) : List String → Option Nat
  | [] => if cur = "ALIVE" then none else some 0
  | u :: rest =>
    if cur = "ALIVE" then (drain_while_alive u rest).map (· + 1)
    else some 0

/-- Embeds `cancel_order` (canceller executor.py lines 65-95): absent order
id — warn, `return False`; present but not ALIVE — warn, `return True`
without calling the broker; otherwise `api.cancel_order` followed by the
drain loop, `return True`.  `none` models the non-terminating drain loop. -/
def cancel_order (view : List BrokerOrder) (oid : String)
    (updates : List String) : Option (Bool × List CancelEvent) :=
  match view.find? (fun o => o.order_id == oid) with
  | none => some (false, [.warn_not_found])
  | some o =>
    if o.status ≠ "ALIVE" then some (true, [.warn_not_alive])
    else
      match drain_while_alive o.status updates with
      | none => none
      | some n => some (true, .cancel_call oid :: List.replicate n .drain)

lemma drain_while_alive_not_alive {u : String} (hu : ¬ u = "ALIVE")
    (l : List String) : drain_while_alive u l = some 0 := by
  cases l <;> simp [drain_while_alive, hu]

/-- The drain count returned by `drain_while_alive` starting from ALIVE is
the 1-based position of the first non-ALIVE status among the successive
post-drain statuses. -/
lemma drain_while_alive_sound :
    ∀ (updates : List String) (n : Nat),
      drain_while_alive "ALIVE" updates = some n →
      1 ≤ n ∧ n ≤ updates.length ∧ updates.getD (n - 1) "" ≠ "ALIVE" ∧
        ∀ i, i + 1 < n → updates.getD i "" = "ALIVE" := by
  intro updates
  induction updates with
  | nil => intro n h; simp [drain_while_alive] at h
  | cons u rest ih =>
      intro n h
      simp only [drain_while_alive, if_pos rfl] at h
      by_cases hu : u = "ALIVE"
      · subst hu
        rcases hm : drain_while_alive "ALIVE" rest with _ | m
        · rw [hm] at h; simp at h
        · rw [hm] at h
          simp at h
          obtain ⟨h1, h2, h3, h4⟩ := ih m hm
          subst h
          refine ⟨by omega, by simp; omega, ?_, ?_⟩
          · have hm1 : m + 1 - 1 = (m - 1) + 1 := by omega
            rw [hm1, List.getD_cons_succ]
            exact h3
          · intro i hi
            match i with
            | 0 => simp
            | j + 1 =>
                rw [List.getD_cons_succ]
                exact h4 j (by omega)
      · rw [drain_while_alive_not_alive hu] at h
        simp at h
        subst h
        refine ⟨le_refl 1, by simp, by simpa using hu, ?_⟩
        intro i hi
        omega

/-! ## Request models and their dict round-trips

Embeds `OrderSubmitRequest` and `OrderCancelRequest` from
`src/shared/models.py` (lines 10-55), together with their
`to_dict` (`dataclasses.asdict`) and `from_dict` methods.  A Python dict of
scalars is a list of key/value pairs; `json.dumps` followed by `json.loads`
is the identity on such flat dicts, so the JSON hop is modelled by the dict
itself. -/

inductive PyVal where
  | vstr (s : String)
  | vint (i : Int)
  | vfloat (q : Rat)
  | vnone
deriving DecidableEq, Repr

def dict_get (d : List (String × PyVal)) (k : String) : Option PyVal :=
  (d.find? (fun p => p.1 == k)).map (fun p => p.2)

/-- Python `data.get(key, default)` for string-valued fields.  (A present
value of a non-string runtime type cannot be stored in the typed model; the
round-trip statements only apply `from_dict` to `to_dict` outputs, which are
well-typed.) -/
def dict_get_str (d : List (String × PyVal)) (k : String) (dflt : String) :
    String :=
  match dict_get d k with
  | some (.vstr s) => s
  | _ => dflt

structure OrderSubmitRequest where
  symbol : String
  direction : String
  offset : String
  volume : Int
  order_id : String
  portfolio_id : String
  limit_price : Option Rat := none
deriving DecidableEq, Repr

/-- `OrderSubmitRequest.to_dict` = `dataclasses.asdict(self)` (models.py
lines 21-22): one key per dataclass field. -/
def order_submit_to_dict (r : OrderSubmitRequest) : List (String × PyVal) :=
  [("symbol", .vstr r.symbol), ("direction", .vstr r.direction),
   ("offset", .vstr r.offset), ("volume", .vint r.volume),
   ("order_id", .vstr r.order_id), ("portfolio_id", .vstr r.portfolio_id),
   ("limit_price",
    match r.limit_price with
    | some p => .vfloat p
    | none => .vnone)]

/-- `OrderSubmitRequest.from_dict` (models.py lines 24-34): indexes the six
required keys (a missing key raises `KeyError`, modelled as `none`) and
reads `limit_price` via `.get`. -/
def order_submit_from_dict (d : List (String × PyVal)) :
    Option OrderSubmitRequest :=
  match dict_get d "symbol", dict_get d "direction", dict_get d "offset",
        dict_get d "volume", dict_get d "order_id",
        dict_get d "portfolio_id" with
  | some (.vstr sym), some (.vstr dir), some (.vstr off), some (.vint vol),
      some (.vstr oid), some (.vstr pid) =>
      some { symbol := sym, direction := dir, offset := off, volume := vol,
             order_id := oid, portfolio_id := pid,
             limit_price :=
               match dict_get d "limit_price" with
               | some (.vfloat p) => some p
               | _ => none }
  | _, _, _, _, _, _ => none

structure OrderCancelRequest where
  order_id : String := ""
  cancel_type : String := "order_id"
  contract_code : String := ""
  portfolio_id : String := ""
deriving DecidableEq, Repr

/-- `OrderCancelRequest.to_dict` = `dataclasses.asdict(self)` (models.py
lines 45-46): the serialized key for the type selector is the field name
`cancel_type`. -/
def order_cancel_to_dict (r : OrderCancelRequest) : List (String × PyVal) :=
  [("order_id", .vstr r.order_id), ("cancel_type", .vstr r.cancel_type),
   ("contract_code", .vstr r.contract_code),
   ("portfolio_id", .vstr r.portfolio_id)]

/-- `OrderCancelRequest.from_dict` (models.py lines 48-55): every field read
via `.get` with a default; the type selector is read from the key `type`,
not `cancel_type`. -/
def order_cancel_from_dict (d : List (String × PyVal)) : OrderCancelRequest :=
  { order_id := dict_get_str d "order_id" "",
    cancel_type := dict_get_str d "type" "order_id",
    contract_code := dict_get_str d "contract_code" "",
    portfolio_id := dict_get_str d "portfolio_id" "" }

/-! ## Claim theorems (worker loop, event classification) -/

/-- C1: the claim states the worker raises its fatal condition after the
third consecutive failing drain during trading hours.  The code raises only
when `block_counter > block_counter_max` (i.e. when the counter reaches 4),
so after three consecutive failures the loop is still running:
counterexample at the concrete trace of three failing in-trading drains. -/
theorem C1_counterexample :
    (worker_run (List.replicate 3 fail_in_trading)).fatal = false := by
  decide

/-- C1 (amended): during trading hours the worker raises the fatal condition
on the fourth consecutive failing drain (when the counter exceeds
`block_counter_max = 3`), not the third; a successful drain resets the
counter to 0 without raising; a failing drain outside trading hours leaves
the counter unchanged. -/
theorem C1_liveness_counter :
    (∀ n : Nat,
        (worker_run (List.replicate n fail_in_trading)).fatal = decide (4 ≤ n)) ∧
    (∀ (c : Nat) (b : Bool),
        worker_step { block_counter := c, fatal := false }
          { success := true, in_trading := b } =
          { block_counter := 0, fatal := false }) ∧
    (∀ c : Nat,
        (worker_step { block_counter := c, fatal := false }
          { success := false, in_trading := false }).block_counter = c) := by
  refine ⟨fun n => ?_, fun c b => ?_, fun c => ?_⟩
  · rw [worker_run_fail_replicate]
    by_cases h : n ≤ 3
    · simp [if_pos h]
      omega
    · simp [if_neg h]
      omega
  · simp [worker_step, block_counter_max]
  · simp [worker_step]

/-- C7: for every order observed by the Order Monitor, the emitted
`event_type` is exactly NEW for an ALIVE order with `volume_left =
volume_orign`, PARTIAL_FILL for an ALIVE order with `volume_left <
volume_orign`, COMPLETE_FILL for a FINISHED order with `volume_left = 0`,
and CANCELED for a FINISHED order with `volume_left > 0`. -/
theorem C7_event_type (volume_left volume_orign : Int) :
    determine_event_type "ALIVE" volume_orign volume_orign = "NEW" ∧
    (volume_left < volume_orign →
      determine_event_type "ALIVE" volume_left volume_orign = "PARTIAL_FILL") ∧
    determine_event_type "FINISHED" 0 volume_orign = "COMPLETE_FILL" ∧
    (0 < volume_left →
      determine_event_type "FINISHED" volume_left volume_orign = "CANCELED") := by
  refine ⟨?_, fun h => ?_, ?_, fun h => ?_⟩
  · simp [determine_event_type]
  · simp [determine_event_type, h]
  · simp [determine_event_type]
  · simp [determine_event_type]
    omega

/-- C7 witness: the classification evaluated on the concrete order states of
a 5-lot order. -/
theorem C7_event_type_witness :
    determine_event_type "ALIVE" 5 5 = "NEW" ∧
    determine_event_type "ALIVE" 2 5 = "PARTIAL_FILL" ∧
    determine_event_type "FINISHED" 0 5 = "COMPLETE_FILL" ∧
    determine_event_type "FINISHED" 2 5 = "CANCELED" := by
  have h := C7_event_type 2 5
  exact ⟨(C7_event_type 2 5).1, h.2.1 (by norm_num), h.2.2.1,
    h.2.2.2 (by norm_num)⟩

/-- C2: the claim states every completed SUBMIT performs a DB INSERT of the
orders row strictly before the broker `insert_order` call.  The submit path
actually shipped (`OrderSubmitterService.process_order`, which calls the
two-argument `execute_order` of `tq_order_submitter/executor.py`) performs
no DB insert at all: no trace of `execute_order` ever contains a `db_insert`
event, and on the scenario-S1 request the broker is called with no preceding
INSERT.  (`worker.py` calls `execute_order(api, db_writer, config, order)`,
a four-argument form that the two-parameter definition would reject with a
`TypeError`, and `OrderDbWriter.insert_order` has no caller, so the INSERT
stage of the spec is the intent and its absence a slip.) -/
theorem C2_no_db_insert_on_submit_path :
    (∀ (req : SubmitMessage) (now_ns : Int) (tod : Nat),
        (execute_order req now_ns tod).2.all (fun e => ! e.is_db_insert) = true) ∧
    execute_order s1_request 1000000000 36000
      = (none,
         [.drain,
          .broker_insert "SHFE.pb2611" "SELL" "OPEN" 2 (some 17355) "A",
          .drain]) := by
  constructor
  · intro req now_ns tod
    rcases hts : req.timestamp with _ | ts
    · simp [execute_order, hts, SubmitEvent.is_db_insert]
    · simp only [execute_order, hts]
      split_ifs <;> simp [SubmitEvent.is_db_insert]
  · decide

/-- C8: for every SUBMIT processed by the executor, a missing timestamp, an
age above `ORDER_EXPIRE_ALLOW_MAX`, or a wall clock outside the trading
windows (or within the last `SESSION_END_BUFFER_SECONDS` of one) yields
`return False` with no broker call; conversely every trace containing a
broker `insert_order` call passed the age bound and the session-window
check at check time. -/
theorem C8_submit_validation (req : SubmitMessage) (now_ns : Int) (tod : Nat) :
    ((req.timestamp = none ∨
      (∃ ts, req.timestamp = some ts ∧
        now_ns - ts > ORDER_EXPIRE_ALLOW_MAX * 1000000000) ∨
      is_in_trading_session tod = false) →
     (execute_order req now_ns tod).1 = some false ∧
     (execute_order req now_ns tod).2.all (fun e => ! e.is_broker_insert) = true) ∧
    ((execute_order req now_ns tod).2.any SubmitEvent.is_broker_insert = true →
     ∃ ts, req.timestamp = some ts ∧
       now_ns - ts ≤ ORDER_EXPIRE_ALLOW_MAX * 1000000000 ∧
       is_in_trading_session tod = true) := by
  constructor
  · intro h
    rcases hts : req.timestamp with _ | ts
    · simp [execute_order, hts, SubmitEvent.is_broker_insert]
    · rcases h with h | ⟨ts2, hts2, hage⟩ | hsess
      · rw [h] at hts; cases hts
      · rw [hts] at hts2
        injection hts2 with h2
        subst h2
        by_cases h0 : ts = 0
        · simp [execute_order, hts, h0, SubmitEvent.is_broker_insert]
        · simp [execute_order, hts, h0, hage, SubmitEvent.is_broker_insert]
      · by_cases h0 : ts = 0
        · simp [execute_order, hts, h0, SubmitEvent.is_broker_insert]
        · by_cases hage : now_ns - ts > ORDER_EXPIRE_ALLOW_MAX * 1000000000
          · simp [execute_order, hts, h0, hage, SubmitEvent.is_broker_insert]
          · simp [execute_order, hts, h0, hage, hsess,
              SubmitEvent.is_broker_insert]
  · intro h
    rcases hts : req.timestamp with _ | ts
    · simp [execute_order, hts, SubmitEvent.is_broker_insert] at h
    · by_cases h0 : ts = 0
      · simp [execute_order, hts, h0, SubmitEvent.is_broker_insert] at h
      · by_cases hage : now_ns - ts > ORDER_EXPIRE_ALLOW_MAX * 1000000000
        · simp [execute_order, hts, h0, hage, SubmitEvent.is_broker_insert] at h
        · by_cases hsess : is_in_trading_session tod
          · exact ⟨ts, rfl, le_of_not_lt hage, hsess⟩
          · simp [execute_order, hts, h0, hage, hsess,
              SubmitEvent.is_broker_insert] at h

/-- C8 witness: the reject branch evaluated on a concrete expired request
(age 5000000001 ns, just over the 5 s bound) at 10:00 Asia/Shanghai. -/
theorem C8_submit_validation_witness :
    (execute_order
        { s1_request with timestamp := some 1 } 5000000002 36000).1
      = some false ∧
    (execute_order
        { s1_request with timestamp := some 1 } 5000000002 36000).2.all
        (fun e => ! e.is_broker_insert) = true := by
  have h := (C8_submit_validation
      { s1_request with timestamp := some 1 } 5000000002 36000).1
    (Or.inr (Or.inl ⟨1, rfl, by norm_num [ORDER_EXPIRE_ALLOW_MAX]⟩))
  exact h

/-- C3: the claim states the Order Handler updates the orders row with
idempotent-monotonic rules, so that applying an update with status CANCELED
and a smaller fill to a row at PARTIALLY_FILLED leaves the row unchanged.
Counterexample: `OrderPostgresWriter.write_order_update` overwrites the
stored status with the update's status unconditionally, so the concrete row
of scenario S5 ends at CANCELED, not PARTIALLY_FILLED. -/
theorem C3_counterexample :
    (write_order_update row_partially_filled upd_canceled 1).status
        = "CANCELED" ∧
    (write_order_update row_partially_filled upd_canceled 1).status
        ≠ "PARTIALLY_FILLED" := by
  constructor
  · rfl
  · decide

/-- C3 (amended): the Order Handler's `OrderPostgresWriter.write_order_update`
overwrites every mutable column (in particular `status` and `volume_left`)
with the update's values unconditionally; the idempotent-monotonic rules of
the claim are implemented only by `DataProcessor.process_order_update` in
`src/tqsdk_client/data_processor.py`, where a CANCELED update leaves a
PARTIALLY_FILLED status in place, `filled_quantity` becomes the maximum of
the old and new values, and in particular applying
(CANCELED, filled 2) to a row at (PARTIALLY_FILLED, filled 3) leaves
(PARTIALLY_FILLED, 3). -/
theorem C3_handler_overwrites_dp_monotonic :
    (∀ (row upd : OrderRowMutable) (now : Int),
        (write_order_update row upd now).status = upd.status ∧
        (write_order_update row upd now).volume_left = upd.volume_left) ∧
    (∀ (row_status : String) (row_filled upd_filled : Rat),
        (dp_process_order_update row_status row_filled "CANCELED" upd_filled).1
          = (if row_status = "PARTIALLY_FILLED" then "PARTIALLY_FILLED"
             else "CANCELED") ∧
        (dp_process_order_update row_status row_filled "CANCELED" upd_filled).2
          = max row_filled upd_filled) ∧
    dp_process_order_update "PARTIALLY_FILLED" 3 "CANCELED" 2
      = ("PARTIALLY_FILLED", 3) := by
  refine ⟨fun row upd now => ⟨rfl, rfl⟩, fun rs rf uf => ⟨?_, ?_⟩, ?_⟩
  · by_cases h : rs = "PARTIALLY_FILLED" <;>
      simp [dp_process_order_update, h]
  · rcases le_or_lt uf rf with h | h
    · simp [dp_process_order_update, not_lt_of_le h, max_eq_left h]
    · simp [dp_process_order_update, h, le_of_lt h, max_eq_right (le_of_lt h)]
  · simp [dp_process_order_update]
    norm_num

/-- C4: the claim states that in the dual-loop bus loop a message is
positively acknowledged only after a successful hand-off, and that a JSON
decode failure is negatively acknowledged without requeue.  Counterexample:
the `except json.JSONDecodeError` clause sits inside the
`async with message.process()` block, so the error is swallowed, the block
exits normally, and aio-pika positively acknowledges the undecodable
message without any hand-off. -/
theorem C4_counterexample :
    bus_loop_handle (none : Option Nat) true = (.ack, false) ∧
    (bus_loop_handle (none : Option Nat) true).1 ≠ .reject_no_requeue := by
  exact ⟨rfl, by decide⟩

/-- C4 (amended): in the dual-loop bus loop a successfully decoded message
is positively acknowledged exactly when it is handed off to the internal
bounded queue, and is rejected without requeue when the queue is full; a
message whose body fails JSON decoding is positively acknowledged without
any hand-off (the decode error is swallowed inside the process context).
The blocking `RabbitMQConsumer.consume` used by the standalone services
does negatively acknowledge decode failures without requeue. -/
theorem C4_bus_ack_policy :
    (∀ (α : Type) (m : α) (room : Bool),
        bus_loop_handle (some m) room
          = if room then (.ack, true) else (.reject_no_requeue, false)) ∧
    (∀ room : Bool, bus_loop_handle (none : Option Unit) room = (.ack, false)) ∧
    (∀ cb : Option Bool,
        consumer_on_message true (none : Option Unit) cb = .nack_no_requeue) := by
  refine ⟨fun α m room => ?_, fun room => ?_, fun cb => ?_⟩
  · cases room <;> rfl
  · rfl
  · rfl

/-- A CLOSE request on SHFE (scenario S3 with the whole long position held
overnight): order "B", SELL, volume 5. -/
def close_request_b : SubmitMessage :=
  { symbol := "SHFE.rb2505", direction := "SELL", offset := "CLOSE",
    volume := 5, limit_price := none, order_id := "B",
    timestamp := some 1000000000 }

/-- A cached position with no today quantity on the long side:
`pos_long_today = 0`, `pos_long_his = 4`. -/
def pos_no_today : FullPosition :=
  { pos_long := 4, pos_short := 0, pos := 4, pos_long_today := 0,
    pos_long_his := 4, pos_short_today := 0, pos_short_his := 0 }

/-- C5: the claim states that for every CLOSE order on SHFE/INE with a
cached position the first returned child is a CLOSETODAY order of volume
`min(today_qty, volume)`.  Counterexample: when `today_qty = 0` the code
emits no CLOSETODAY child at all — with `pos_long_today = 0`,
`pos_long_his = 4` the SELL CLOSE of volume 5 returns the single child
(CLOSE, 4, "B_close"). -/
theorem C5_counterexample :
    (split_close_order close_request_b (some pos_no_today)).map
        (fun o => (o.offset, o.volume, o.order_id))
      = [("CLOSE", 4, "B_close")] ∧
    (split_close_order close_request_b (some pos_no_today)).head?.map
        SubmitMessage.offset ≠ some "CLOSETODAY" := by
  constructor
  · decide
  · decide

/-- C5 (amended): for every CLOSE order on a CLOSETODAY exchange (SHFE/INE):
a CLOSETODAY child of volume `min(today_qty, volume)` and order id
`parent_id ++ "_closetoday"` comes first only when `today_qty > 0` and
`volume > 0`; a CLOSE child of volume `min(his_qty, remaining)` and order id
`parent_id ++ "_close"` follows only when volume remains and `his_qty > 0`;
when `today_qty ≤ 0` the result is just the CLOSE child (if `his_qty > 0`)
or the unchanged original (if also `his_qty ≤ 0`); `today_qty` and `his_qty`
come from the long side for SELL and the short side otherwise; the summed
volume of the returned orders never exceeds the parent volume; and with no
cached position the original request is returned unchanged. -/
theorem C5_split_rules (req : SubmitMessage) (pos : FullPosition) :
    (∀ p : Option FullPosition,
        volume_sum (split_close_order req p) ≤ req.volume) ∧
    split_close_order req none = [req] ∧
    (req.offset = "CLOSE" → requires_closetoday req.symbol = true →
      ((0 < today_qty req pos → 0 < req.volume →
        (split_close_order req (some pos)).head? =
          some { req with offset := "CLOSETODAY",
                          volume := min (today_qty req pos) req.volume,
                          order_id := req.order_id ++ "_closetoday" }) ∧
       (0 < today_qty req pos → today_qty req pos < req.volume →
        0 < his_qty req pos →
        split_close_order req (some pos) =
          [{ req with offset := "CLOSETODAY", volume := today_qty req pos,
                      order_id := req.order_id ++ "_closetoday" },
           { req with offset := "CLOSE",
                      volume := min (his_qty req pos)
                                    (req.volume - today_qty req pos),
                      order_id := req.order_id ++ "_close" }]) ∧
       (today_qty req pos ≤ 0 → 0 < his_qty req pos → 0 < req.volume →
        split_close_order req (some pos) =
          [{ req with offset := "CLOSE",
                      volume := min (his_qty req pos) req.volume,
                      order_id := req.order_id ++ "_close" }]) ∧
       (today_qty req pos ≤ 0 → his_qty req pos ≤ 0 →
        split_close_order req (some pos) = [req]))) := by
  refine ⟨?_, ?_, fun hoff hex => ⟨?_, ?_, ?_, ?_⟩⟩
  · intro p
    by_cases hc : (req.offset = "CLOSE" ∧ requires_closetoday req.symbol)
    · rcases p with _ | pos2
      · simp [split_close_order, hc, volume_sum]
      · simp only [split_close_order, hc, not_true_eq_false, if_false]
        split_ifs with h1 h2 h3 h4 h5 h6 h7 h8 <;>
          simp_all [volume_sum]
        all_goals omega
    · simp [split_close_order, hc, volume_sum]
  · by_cases hc : (req.offset = "CLOSE" ∧ requires_closetoday req.symbol) <;>
      simp [split_close_order, hc]
  · intro htq hv
    have hc : (req.offset = "CLOSE" ∧ requires_closetoday req.symbol) :=
      ⟨hoff, hex⟩
    simp [split_close_order, hc, htq, hv]
  · intro htq hlt hhq
    have hc : (req.offset = "CLOSE" ∧ requires_closetoday req.symbol) :=
      ⟨hoff, hex⟩
    have hv : 0 < req.volume := lt_trans htq hlt
    have hmin : min (today_qty req pos) req.volume = today_qty req pos :=
      min_eq_left (le_of_lt hlt)
    have hrem : 0 < req.volume - min (today_qty req pos) req.volume := by
      omega
    simp [split_close_order, hc, htq, hv, hhq, hrem, hmin, hlt]
  · intro htq hhq hv
    have hc : (req.offset = "CLOSE" ∧ requires_closetoday req.symbol) :=
      ⟨hoff, hex⟩
    have htq2 : ¬ (0 < today_qty req pos) := not_lt.mpr htq
    simp [split_close_order, hc, htq2, hhq, hv]
  · intro htq hhq
    have hc : (req.offset = "CLOSE" ∧ requires_closetoday req.symbol) :=
      ⟨hoff, hex⟩
    have htq2 : ¬ (0 < today_qty req pos) := not_lt.mpr htq
    have hhq2 : ¬ (0 < his_qty req pos) := not_lt.mpr hhq
    simp [split_close_order, hc, htq2, hhq2]

/-- C5 witness: the amended rules evaluated on scenario S3 —
`pos_long_today = 3`, `pos_long_his = 4`, SELL CLOSE volume 5 on
SHFE.rb2505 splits into (CLOSETODAY, 3, "B_closetoday") then
(CLOSE, 2, "B_close"). -/
theorem C5_split_rules_witness :
    split_close_order close_request_b
        (some { pos_long := 7, pos_short := 0, pos := 7, pos_long_today := 3,
                pos_long_his := 4, pos_short_today := 0, pos_short_his := 0 }) =
      [{ close_request_b with offset := "CLOSETODAY", volume := 3,
                              order_id := "B_closetoday" },
       { close_request_b with offset := "CLOSE", volume := 2,
                              order_id := "B_close" }] := by
  have h := ((C5_split_rules close_request_b
      { pos_long := 7, pos_short := 0, pos := 7, pos_long_today := 3,
        pos_long_his := 4, pos_short_today := 0, pos_short_his := 0 }).2.2
    (by decide) (by decide)).2.1 (by decide) (by decide) (by decide)
  simpa using h

/-- C6: `shared/redis_client.py` imports two names that
`shared/constants.py` does not define, so importing the module raises
`ImportError`; the `RedisClient` class defines none of `get_full_position`,
`set_full_position`, `refresh_position_ttl`, so every CLOSE order on a
CLOSETODAY exchange makes `split_close_order` raise `AttributeError` at its
cache lookup, and every `_reconcile_position` / `_ensure_position_exists`
call of the reconciliation cycle raises likewise: the success branches are
unreachable. -/
theorem C6_cache_access_always_fails :
    constants_defined_names.contains "REDIS_POSITION_BREAKDOWN_KEY_PATTERN"
        = false ∧
    constants_defined_names.contains "POSITION_BREAKDOWN_TTL" = false ∧
    import_shared_redis_client = .error "ImportError" ∧
    redis_client_methods.contains "get_full_position" = false ∧
    redis_client_methods.contains "set_full_position" = false ∧
    redis_client_methods.contains "refresh_position_ttl" = false ∧
    (∀ (req : SubmitMessage) (cached : Option FullPosition),
        req.offset = "CLOSE" → requires_closetoday req.symbol = true →
        split_close_order_run req cached
          = .error "AttributeError: get_full_position") ∧
    (∀ (p : FullPosition) (c : Option FullPosition),
        reconcile_position_run p c
          = .error "AttributeError: get_full_position") := by
  have hm : redis_method_call "get_full_position"
      = PyResult.error "AttributeError: get_full_position" := by decide
  refine ⟨by decide, by decide, by decide, by decide, by decide, by decide,
    fun req cached hoff hex => ?_, fun p c => ?_⟩
  · have hc : (req.offset = "CLOSE" ∧ requires_closetoday req.symbol) :=
      ⟨hoff, hex⟩
    simp [split_close_order_run, hc, hm]
  · simp [reconcile_position_run, hm]

/-- C6 witness: the failing cache accesses evaluated on the concrete CLOSE
order "B" and on a concrete reconciliation of a zero position. -/
theorem C6_cache_access_always_fails_witness :
    split_close_order_run close_request_b none
        = .error "AttributeError: get_full_position" ∧
    reconcile_position_run {} none
        = .error "AttributeError: get_full_position" := by
  exact ⟨C6_cache_access_always_fails.2.2.2.2.2.2.1 close_request_b none
      (by decide) (by decide),
    C6_cache_access_always_fails.2.2.2.2.2.2.2 {} none⟩

/-- C9: the claim states that a cancel request whose `order_id` is absent
from the broker's order view is logged and positively acknowledged.
Counterexample: `cancel_order` returns `False` for an absent id, the worker
returns that value, and the consumer negatively acknowledges (no requeue) on
a `False` callback result — evaluated on the empty order view. -/
theorem C9_counterexample :
    cancel_order [] "A" [] = some (false, [CancelEvent.warn_not_found]) ∧
    consumer_on_message true (some ()) (some false)
      = ConsumeAck.nack_no_requeue ∧
    ConsumeAck.nack_no_requeue ≠ ConsumeAck.ack := by
  refine ⟨by decide, rfl, by decide⟩

/-- C9 (amended): for every cancel request with `type = order_id`: if the id
is absent from the broker's order view the Canceller logs a warning and
returns `False`, so the message is negatively acknowledged without requeue
(not positively acknowledged); if the order is present with status ≠ ALIVE
it logs and returns `True` (acknowledged as success) without calling the
broker; otherwise it calls `cancel_order` on the broker and drains exactly
until the order first leaves ALIVE. -/
theorem C9_cancel_by_order_id (view : List BrokerOrder) (oid : String)
    (updates : List String) :
    (view.find? (fun o => o.order_id == oid) = none →
      cancel_order view oid updates
        = some (false, [CancelEvent.warn_not_found]) ∧
      consumer_on_message true (some ()) (some false)
        = ConsumeAck.nack_no_requeue) ∧
    (∀ o, view.find? (fun o2 => o2.order_id == oid) = some o →
      o.status ≠ "ALIVE" →
      cancel_order view oid updates
        = some (true, [CancelEvent.warn_not_alive])) ∧
    (∀ o n, view.find? (fun o2 => o2.order_id == oid) = some o →
      o.status = "ALIVE" → drain_while_alive "ALIVE" updates = some n →
      cancel_order view oid updates
        = some (true, CancelEvent.cancel_call oid ::
            List.replicate n CancelEvent.drain)) ∧
    (∀ n, drain_while_alive "ALIVE" updates = some n →
      1 ≤ n ∧ n ≤ updates.length ∧ updates.getD (n - 1) "" ≠ "ALIVE" ∧
        ∀ i, i + 1 < n → updates.getD i "" = "ALIVE") := by
  refine ⟨fun hnone => ?_, fun o ho hst => ?_, fun o n ho hst hd => ?_,
    fun n hd => drain_while_alive_sound updates n hd⟩
  · exact ⟨by simp [cancel_order, hnone], rfl⟩
  · simp [cancel_order, ho, hst]
  · rw [cancel_order, ho]
    simp only [hst]
    rw [if_neg (by simp), hd]

/-- C9 witness: the three branches evaluated on concrete inputs — an empty
view for the absent case, a FINISHED order for the not-alive case, and an
ALIVE order whose status becomes FINISHED after two drains. -/
theorem C9_cancel_by_order_id_witness :
    cancel_order [] "A" [] = some (false, [CancelEvent.warn_not_found]) ∧
    cancel_order [{ order_id := "A", status := "FINISHED" }] "A" []
      = some (true, [CancelEvent.warn_not_alive]) ∧
    cancel_order [{ order_id := "A", status := "ALIVE" }] "A"
        ["ALIVE", "FINISHED"]
      = some (true, [CancelEvent.cancel_call "A", CancelEvent.drain,
          CancelEvent.drain]) := by
  refine ⟨((C9_cancel_by_order_id [] "A" []).1 (by decide)).1,
    (C9_cancel_by_order_id [{ order_id := "A", status := "FINISHED" }] "A"
        []).2.1
      { order_id := "A", status := "FINISHED" } (by decide) (by decide),
    ?_⟩
  have h := (C9_cancel_by_order_id
      [{ order_id := "A", status := "ALIVE" }] "A" ["ALIVE", "FINISHED"]).2.2.1
    { order_id := "A", status := "ALIVE" } 2 (by decide) rfl (by decide)
  simpa using h

/-- C10: the claim states that dict/JSON round-tripping is the identity for
both request models, in particular for `OrderCancelRequest.cancel_type`.
Counterexample: `to_dict` serializes the selector under the key
`cancel_type` while `from_dict` reads the key `type`, so a request with
`cancel_type = "contract_code"` comes back with `cancel_type = "order_id"`. -/
theorem C10_counterexample :
    order_cancel_from_dict (order_cancel_to_dict
        { order_id := "A", cancel_type := "contract_code",
          contract_code := "SHFE.rb2505", portfolio_id := "P1" })
      ≠ { order_id := "A", cancel_type := "contract_code",
          contract_code := "SHFE.rb2505", portfolio_id := "P1" } := by
  decide

/-- C10 (amended): `OrderSubmitRequest` round-trips exactly
(`from_dict (to_dict r) = r` for every request); `OrderCancelRequest`
round-trips on `order_id`, `contract_code` and `portfolio_id`, but
`cancel_type` always comes back as the default `"order_id"` (because
`to_dict` writes the key `cancel_type` and `from_dict` reads `type`), so the
round-trip is the identity exactly when `cancel_type = "order_id"`. -/
theorem C10_round_trip :
    (∀ r : OrderSubmitRequest,
        order_submit_from_dict (order_submit_to_dict r) = some r) ∧
    (∀ r : OrderCancelRequest,
        order_cancel_from_dict (order_cancel_to_dict r)
          = { r with cancel_type := "order_id" }) := by
  constructor
  · intro r
    rcases r with ⟨sym, dir, off, vol, oid, pid, _ | lp⟩ <;> rfl
  · intro r
    rfl

end TqBroker
